import Mathlib

/-!
Shallow embedding of the opt-project repository scripts that the claims
concern: the station / green-space spatial matcher of
`station_data_proccess.py`, the station-id validator of
`air_quality_data_proccess.py`, and the locale-string parser
`extract_info` of `population_data_proccess.py`.

Geometry is abstracted over a type `G` together with the two geometric
primitives the source obtains from geopandas / shapely: a boolean
within-test and a rational-valued distance.  CRS reprojection (`to_crs`)
is a parameter `proj` returning an optional geometry transformation,
`none` modelling a raising `to_crs` call.  `NaN` attribute values are
modelled as `none`.
-/

namespace OptProject

/-- A station row of `gdf_stations`: the value of the station-name column
and a geometry. -/
structure Station (G : Type) where
  name : String
  geom : G
deriving DecidableEq

/-- A green-area row of `gdf_green_areas_with_mahalle`: the value of the
mahalle (region-name) column, `none` for a missing (NaN) value, and a
polygon geometry. -/
structure GreenArea (G : Type) where
  mahalle : Option String
  geom : G
deriving DecidableEq

/-- A GeoDataFrame: an optional declared CRS and a list of rows. -/
structure GeoDF (ρ : Type) where
  crs : Option String
  rows : List ρ
deriving DecidableEq

/-- One row of the result DataFrame built by the matcher.  The source
appends dicts with exactly the keys `station_name`, `assigned_mahalle`
and `assignment_type`; no distance field exists in the output. -/
structure MatchResult where
  station_name : String
  assigned_mahalle : String
  assignment_type : String
deriving DecidableEq

/-- The `assignment_type` string of a containment-tier record
(source line 84). -/
def containedTag : String := "İçinde (Yeşil Alan Poligonu)"

/-- The `assignment_type` f-string of a nearest-tier record
(source line 113); it embeds `max_nearest_distance`, not the measured
distance. -/
def nearestTag (mx : ℚ) : String :=
  "En Yakın (Yeşil Alan Poligonu, <= " ++ toString mx ++ "m)"

/-- The placeholder `assigned_mahalle` string of an unmatched record
(source line 118). -/
def unassignedMahalle : String :=
  "Eşleşen Mahalle Yok (Mesafe Dışı veya Yakın Poligon Yok)"

/-- The `assignment_type` string of an unmatched record
(source line 119). -/
def unassignedTag : String := "Eşleşme Yok (Mesafe Dışı)"

variable {G : Type} {ρ : Type}

/-- The rows of `gpd.sjoin(stations, green, how := left, predicate :=
within)` that belong to one station, projected to the joined mahalle
column: one entry per green area containing the station (in green-frame
order), or a single NaN (`none`) entry when no green area contains it. -/
def withinRows (within : G → G → Bool) (green : List (GreenArea G)) (s : Station G) :
    List (Option String) :=
  let hits := (green.filter fun g => within s.geom g.geom).map fun g => g.mahalle
  if hits.isEmpty then [none] else hits

/-- The records the containment loop (source lines 74-86) appends for one
station: one per joined row whose mahalle value is non-NaN
(`pd.notna`). -/
def containedFor (within : G → G → Bool) (green : List (GreenArea G)) (s : Station G) :
    List MatchResult :=
  (withinRows within green s).filterMap fun r =>
    r.map fun m =>
      { station_name := s.name, assigned_mahalle := m, assignment_type := containedTag }

/-- Whether the containment loop adds the station's index to
`stations_processed_indices`: some joined row has a non-NaN mahalle. -/
def stationProcessed (within : G → G → Bool) (green : List (GreenArea G)) (s : Station G) :
    Bool :=
  (withinRows within green s).any fun r => r.isSome

/-- `gdf_stations_proj.index.difference(stations_processed_indices)`
(source line 92); `Index.difference` is sorted, which on the default
range index is the original station order. -/
def remainingStations (within : G → G → Bool) (green : List (GreenArea G))
    (stations : List (Station G)) : List (Station G) :=
  stations.filter fun s => !(stationProcessed within green s)

/-- The green areas within `max_distance` of the station, as queried by
`gpd.sjoin_nearest` (source lines 98-103). -/
def inRangeGreens (dist : G → G → ℚ) (mx : ℚ) (green : List (GreenArea G)) (s : Station G) :
    List (GreenArea G) :=
  green.filter fun g => decide (dist s.geom g.geom ≤ mx)

/-- The rows of `gpd.sjoin_nearest(remaining, green, how := left,
max_distance := mx)` belonging to one station, projected to the mahalle
column: all in-range green areas at minimal distance (ties are all
returned), or a single NaN (`none`) row when none is in range. -/
def nearestRows (dist : G → G → ℚ) (mx : ℚ) (green : List (GreenArea G)) (s : Station G) :
    List (Option String) :=
  match inRangeGreens dist mx green s with
  | [] => [none]
  | g0 :: gs =>
    let dmin := (gs.map fun g => dist s.geom g.geom).foldl min (dist s.geom g0.geom)
    ((g0 :: gs).filter fun g => decide (dist s.geom g.geom = dmin)).map fun g => g.mahalle

/-- The records the nearest loop (source lines 105-121) appends for one
remaining station: a nearest record for a non-NaN joined mahalle, an
unmatched placeholder record otherwise. -/
def nearestFor (dist : G → G → ℚ) (mx : ℚ) (green : List (GreenArea G)) (s : Station G) :
    List MatchResult :=
  (nearestRows dist mx green s).map fun r =>
    match r with
    | some m =>
      { station_name := s.name, assigned_mahalle := m, assignment_type := nearestTag mx }
    | none =>
      { station_name := s.name, assigned_mahalle := unassignedMahalle,
        assignment_type := unassignedTag }

/-- The matching phase of
`match_stations_to_neighborhoods_from_green_spaces` (source lines
56-136), operating on the already CRS-handled frames: the containment
loop appends its records first (stations in frame order), then, if any
station remains, the nearest loop appends records for the remaining
stations in frame order. -/
def matchCore (within : G → G → Bool) (dist : G → G → ℚ) (stations : List (Station G))
    (green : List (GreenArea G)) (mx : ℚ) : List MatchResult :=
  let contained := stations.flatMap (containedFor within green)
  let remaining := remainingStations within green stations
  let nearest := if remaining.isEmpty then [] else remaining.flatMap (nearestFor dist mx green)
  contained ++ nearest

/-- Source lines 37-42: a frame with no declared CRS has EPSG:4326 set
on it (with a printed warning) instead of an error being raised. -/
def set_crs_default (g : GeoDF ρ) : GeoDF ρ :=
  if g.crs = none then { g with crs := some "EPSG:4326" } else g

/-- Source line 45. -/
def target_crs : String := "EPSG:32635"

/-- Source lines 37-53: default undeclared CRSs to EPSG:4326, then try
to reproject both frames to `target_crs`; if either `to_crs` raises
(`proj _ _ = none`), continue with the (un-reprojected) originals. -/
def projectInputs (proj : String → String → Option (G → G)) (st : GeoDF (Station G))
    (gr : GeoDF (GreenArea G)) : List (Station G) × List (GreenArea G) :=
  let st2 := set_crs_default st
  let gr2 := set_crs_default gr
  match proj (st2.crs.getD "EPSG:4326") target_crs,
        proj (gr2.crs.getD "EPSG:4326") target_crs with
  | some f, some h =>
    (st2.rows.map fun s => { s with geom := f s.geom },
     gr2.rows.map fun g => { g with geom := h g.geom })
  | _, _ => (st2.rows, gr2.rows)

/-- `match_stations_to_neighborhoods_from_green_spaces` of
`station_data_proccess.py`: CRS handling followed by the two-tier
matching. -/
def match_stations_to_neighborhoods_from_green_spaces (within : G → G → Bool)
    (dist : G → G → ℚ) (proj : String → String → Option (G → G))
    (gdf_stations : GeoDF (Station G)) (gdf_green_areas_with_mahalle : GeoDF (GreenArea G))
    (max_nearest_distance : ℚ) : List MatchResult :=
  let pr := projectInputs proj gdf_stations gdf_green_areas_with_mahalle
  matchCore within dist pr.1 pr.2 max_nearest_distance

/-- A station dict returned by the air-quality API: `get` of a missing
key is `none`. -/
structure AQStation where
  id : Option String
  name : Option String
deriving DecidableEq

/-- `is_valid_station_id` of `air_quality_data_proccess.py` (lines
72-79): `not stations` is true for `None` and for the empty list; the
loop compares each `station.get(Id)` with the given id. -/
def is_valid_station_id (station_id : Option String) (stations : Option (List AQStation)) :
    Bool :=
  match stations with
  | none => false
  | some [] => false
  | some l => l.any fun st => st.id == station_id

/-- A Python value passed to `extract_info`: a string or anything that
fails the `isinstance(raw_info, str)` test. -/
inductive PyVal where
  | str (s : String)
  | nonStr
deriving DecidableEq

/-- Python default `str.strip()` whitespace (ASCII part). -/
def pyIsSpace (c : Char) : Bool :=
  c == ' ' || c == '\t' || c == '\n' || c == '\r' || c == '\x0b' || c == '\x0c'

/-- Python `str.strip()`. -/
def pyStrip (l : List Char) : List Char :=
  (((l.dropWhile pyIsSpace).reverse).dropWhile pyIsSpace).reverse

/-- Python `str.split` on a single character, here the slash of
`inner_content.split`: splitting the empty string gives `[[]]`. -/
def splitSlash : List Char → List (List Char)
  | [] => [[]]
  | c :: rest =>
    if c == '/' then [] :: splitSlash rest
    else
      match splitSlash rest with
      | [] => [[c]]
      | p :: ps => (c :: p) :: ps

/-- Python substring test `needle in s` (for a non-empty needle). -/
def containsSubL (needle : List Char) : List Char → Bool
  | [] => needle.isPrefixOf []
  | c :: rest => needle.isPrefixOf (c :: rest) || containsSubL needle rest

/-- Helper for `removeSubL`, with explicit fuel so the definition is
structural (the fuel `l.length` always suffices for a non-empty
needle). -/
def removeSubAux (needle : List Char) : Nat → List Char → List Char
  | _, [] => []
  | 0, l => l
  | fuel + 1, c :: rest =>
    if needle.isPrefixOf (c :: rest) then
      removeSubAux needle fuel (rest.drop (needle.length - 1))
    else c :: removeSubAux needle fuel rest

/-- Python `s.replace(needle, "")`: delete the non-overlapping
left-to-right occurrences of `needle`. -/
def removeSubL (needle l : List Char) : List Char :=
  removeSubAux needle l.length l

/-- The literal `' Mah.'` of the source. -/
def mahToken : List Char := " Mah.".toList

/-- The literal `' Bel.'` of the source. -/
def belToken : List Char := " Bel.".toList

/-- Whether the lazy group of the regex `\((.*?)\)?(?:-|$)` can stop
right here: an optional closing parenthesis followed by a dash or the
end of the string (Python `$` also matches just before a trailing
newline). -/
def regexStop : List Char → Bool
  | ')' :: '-' :: _ => true
  | [')'] => true
  | [')', '\n'] => true
  | '-' :: _ => true
  | [] => true
  | ['\n'] => true
  | _ => false

/-- The lazily-matched group `(.*?)` of the regex, scanned from just
after an opening parenthesis: the shortest prefix after which
`\)?(?:-|$)` matches; `.` cannot cross a newline, so reaching an
unconsumable newline fails this match position. -/
def lazyGroup : List Char → Option (List Char)
  | [] => some []
  | c :: rest =>
    if regexStop (c :: rest) then some []
    else if c == '\n' then none
    else (lazyGroup rest).map fun g => c :: g

/-- `re.search(r'\((.*?)\)?(?:-|$)', s)`: the group of the leftmost
position at which the pattern matches, scanning for an opening
parenthesis. -/
def searchParenL : List Char → Option (List Char)
  | [] => none
  | c :: rest =>
    if c == '(' then
      match lazyGroup rest with
      | some g => some g
      | none => searchParenL rest
    else searchParenL rest

/-- Python truthiness of the `mahalle` variable (a `None`-or-string):
`not mahalle` is true for `None` and for the empty string. -/
def pyFalsy (m : Option (List Char)) : Bool :=
  (m.getD []).isEmpty

/-- The `for part in reversed(path_parts)` loop of `extract_info`
(source lines 53-62), with the list already reversed and `lastP` the
value of `path_parts[-1]`: a part containing `' Mah.'` sets `mahalle`
and breaks; otherwise a part equal to the last one, while `mahalle` is
still falsy and the part does not contain `' Bel.'`, sets `mahalle` to
the stripped part without breaking. -/
def mahalleGo (lastP : List Char) : List (List Char) → Option (List Char) → Option (List Char)
  | [], m => m
  | part :: rest, m =>
    if containsSubL mahToken part then some (pyStrip (removeSubL mahToken part))
    else
      if part == lastP && pyFalsy m then
        if containsSubL belToken part then mahalleGo lastP rest m
        else mahalleGo lastP rest (some (pyStrip part))
      else mahalleGo lastP rest m

/-- The `mahalle` value `extract_info` computes from the split path
parts. -/
def mahalleLoop (parts : List (List Char)) : Option (List Char) :=
  mahalleGo (parts.getLastD []) parts.reverse none

/-- `extract_info` of `population_data_proccess.py` (lines 38-64). -/
def extract_info (raw_info : PyVal) : Option String × Option String :=
  match raw_info with
  | .nonStr => (none, none)
  | .str s =>
    match searchParenL s.toList with
    | none => (none, none)
    | some inner =>
      let path_parts := splitSlash inner
      (some (String.mk (pyStrip (path_parts.headD []))),
       (mahalleLoop path_parts).map String.mk)

/-- The neighborhood component as the claim describes it, plus the
source's fallback: the last '/'-segment containing `' Mah.'` with the
marker removed and stripped; when no segment contains `' Mah.'`, the
final segment stripped, unless it contains `' Bel.'`. -/
def mahalleSpec (parts : List (List Char)) : Option (List Char) :=
  match parts.reverse.find? (fun p => containsSubL mahToken p) with
  | some p => some (pyStrip (removeSubL mahToken p))
  | none =>
    if containsSubL belToken (parts.getLastD []) then none
    else some (pyStrip (parts.getLastD []))

/-! ### Helper lemmas -/

theorem pyFalsy_none : pyFalsy none = true := rfl

/-- Invariant of the reversed `mahalle` loop: its result is the first
part (in loop order) containing `' Mah.'`, processed; otherwise, when
the accumulator is falsy and some part equals the last part without
containing `' Bel.'`, the stripped last part; otherwise the
accumulator. -/
theorem mahalleGo_eq_spec (lastP : List Char) (r : List (List Char)) :
    ∀ m, mahalleGo lastP r m =
      match r.find? (fun p => containsSubL mahToken p) with
      | some p => some (pyStrip (removeSubL mahToken p))
      | none =>
        if pyFalsy m && r.any (fun p => p == lastP && !containsSubL belToken p)
        then some (pyStrip lastP) else m := by
  induction r with
  | nil => intro m; simp [mahalleGo]
  | cons part rest ih =>
    intro m
    by_cases hmah : containsSubL mahToken part = true
    · simp [mahalleGo, hmah, List.find?_cons_of_pos]
    · rw [List.find?_cons_of_neg _ (by simpa using hmah)]
      by_cases hfal : pyFalsy m = true
      · by_cases hlast : part == lastP
        · have hplv : part = lastP := by exact eq_of_beq hlast
          by_cases hbel : containsSubL belToken part = true
          · rw [show mahalleGo lastP (part :: rest) m = mahalleGo lastP rest m by
              simp [mahalleGo, hmah, hfal, hlast, hbel]]
            rw [ih m]
            simp [hmah, hlast, hbel, hfal]
          · rw [show mahalleGo lastP (part :: rest) m
                = mahalleGo lastP rest (some (pyStrip part)) by
              simp [mahalleGo, hmah, hfal, hlast, hbel]]
            rw [ih (some (pyStrip part)), hplv]
            cases hf : rest.find? (fun p => containsSubL mahToken p) with
            | some p => simp
            | none =>
              simp only [ite_self]
              have hb2 : containsSubL belToken lastP = false := by
                rw [← hplv]; exact eq_false_of_ne_true hbel
              simp [hfal, hlast, hbel, hplv, hb2]
        · rw [show mahalleGo lastP (part :: rest) m = mahalleGo lastP rest m by
            simp [mahalleGo, hmah, hlast]]
          rw [ih m]
          simp [hlast]
      · rw [show mahalleGo lastP (part :: rest) m = mahalleGo lastP rest m by
          simp [mahalleGo, hmah, hfal]]
        rw [ih m]
        simp [hfal]

theorem getLastD_mem_self {α : Type} (d : α) (l : List α) (h : l ≠ []) : l.getLastD d ∈ l := by
  rw [List.getLastD_eq_getLast?, List.getLast?_eq_getLast l h]
  exact List.getLast_mem h

theorem splitSlash_ne_nil : ∀ l : List Char, splitSlash l ≠ [] := by
  intro l
  cases l with
  | nil => simp [splitSlash]
  | cons c rest =>
    simp only [splitSlash]
    split
    · simp
    · split <;> simp

/-- On a non-empty part list (which `split` always yields), the source's
`mahalle` loop computes exactly the last-`' Mah.'`-segment rule with the
last-part fallback. -/
theorem mahalleLoop_eq_spec (parts : List (List Char)) (h : parts ≠ []) :
    mahalleLoop parts = mahalleSpec parts := by
  have hmem : parts.getLastD [] ∈ parts := getLastD_mem_self [] parts h
  unfold mahalleLoop mahalleSpec
  rw [mahalleGo_eq_spec]
  rw [List.getLastD_eq_getLast?] at hmem ⊢
  cases hf : parts.reverse.find? (fun p => containsSubL mahToken p) with
  | some p => simp
  | none =>
    cases hbel : containsSubL belToken (parts.getLast?.getD []) with
    | true =>
      have hany : (parts.reverse.any fun p => p == parts.getLast?.getD [] &&
          !containsSubL belToken p) = false := by
        rw [List.any_eq_false]
        intro p hp
        cases hpe : (p == parts.getLast?.getD []) with
        | false => simp [hpe]
        | true =>
          have hv : p = parts.getLast?.getD [] := eq_of_beq hpe
          simp [hpe, hv, hbel]
      rw [pyFalsy_none, hany]
      simp [hbel]
    | false =>
      have hany : (parts.reverse.any fun p => p == parts.getLast?.getD [] &&
          !containsSubL belToken p) = true := by
        rw [List.any_eq_true]
        exact ⟨parts.getLast?.getD [], by rw [List.mem_reverse]; exact hmem, by simp [hbel]⟩
      rw [pyFalsy_none, hany]
      simp [hbel]

/-! ### Claim theorems -/

/-- Claim C9: `is_valid_station_id(station_id, stations)` returns `True`
iff the stations list is present and non-empty and contains some station
whose `Id` attribute equals the given id; in particular it is `False`
(and total, hence raises nothing) when `stations` is `None` or empty. -/
theorem is_valid_station_id_iff (station_id : Option String)
    (stations : Option (List AQStation)) :
    is_valid_station_id station_id stations = true ↔
      ∃ l, stations = some l ∧ l ≠ [] ∧ ∃ st ∈ l, st.id = station_id := by
  cases stations with
  | none => simp [is_valid_station_id]
  | some l =>
    cases l with
    | nil => simp [is_valid_station_id]
    | cons a t =>
      simp [is_valid_station_id, List.any_eq_true, beq_iff_eq]

/-- Claim C10, counterexample.  The parenthesized content of
`"(a-b/c)"` is `a-b/c`, whose first '/'-segment is `a-b`; the code's
regex capture stops at the dash, so the district comes out as `a`, not
`a-b`.  And for `"X(a/b)"` no segment contains `' Mah.'`, yet the
neighborhood comes out as `b` (the source's fallback), not `None`. -/
theorem extract_info_counterexample :
    extract_info (PyVal.str "(a-b/c)") = (some "a", some "a") ∧
    extract_info (PyVal.str "X(a/b)") = (some "a", some "b") := by
  exact ⟨rfl, rfl⟩

/-- Claim C10, amended: `extract_info` is total; a non-string input
yields `(None, None)`, as does a string on which the regex
`\((.*?)\)?(?:-|$)` finds no match; when the regex matches, the district
is the first '/'-segment of the lazily captured group (which stops at
the first dash, or at a closing parenthesis followed by a dash or the
string end — not necessarily the whole parenthesized content), stripped,
and the neighborhood follows `mahalleSpec`: the last segment containing
`' Mah.'` with the marker removed and stripped, falling back to the
stripped final segment when no segment contains `' Mah.'`, unless that
final segment contains `' Bel.'` (then `None`). -/
theorem extract_info_spec :
    extract_info PyVal.nonStr = (none, none) ∧
    (∀ s : String, searchParenL s.toList = none → extract_info (.str s) = (none, none)) ∧
    ∀ (s : String) (inner : List Char), searchParenL s.toList = some inner →
      extract_info (.str s) =
        (some (String.mk (pyStrip ((splitSlash inner).headD []))),
         (mahalleSpec (splitSlash inner)).map String.mk) := by
  refine ⟨rfl, ?_, ?_⟩
  · intro s hs
    show (match searchParenL s.toList with
          | none => ((none : Option String), (none : Option String))
          | some inner =>
            (some (String.mk (pyStrip ((splitSlash inner).headD []))),
             (mahalleLoop (splitSlash inner)).map String.mk)) = (none, none)
    rw [hs]
  · intro s inner hs
    show (match searchParenL s.toList with
          | none => ((none : Option String), (none : Option String))
          | some inner =>
            (some (String.mk (pyStrip ((splitSlash inner).headD []))),
             (mahalleLoop (splitSlash inner)).map String.mk)) =
         (some (String.mk (pyStrip ((splitSlash inner).headD []))),
          (mahalleSpec (splitSlash inner)).map String.mk)
    rw [hs]
    show (some (String.mk (pyStrip ((splitSlash inner).headD []))),
          (mahalleLoop (splitSlash inner)).map String.mk) =
         (some (String.mk (pyStrip ((splitSlash inner).headD []))),
          (mahalleSpec (splitSlash inner)).map String.mk)
    rw [mahalleLoop_eq_spec _ (splitSlash_ne_nil inner)]

/-- Witness for `extract_info_spec` at the concrete input
`"(a/b Mah.)"`, whose capture is `a/b Mah.`. -/
theorem extract_info_spec_witness :
    extract_info (PyVal.str "(a/b Mah.)") =
      (some (String.mk (pyStrip ((splitSlash "a/b Mah.".toList).headD []))),
       (mahalleSpec (splitSlash "a/b Mah.".toList)).map String.mk) :=
  extract_info_spec.2.2 "(a/b Mah.)" "a/b Mah.".toList (by decide)

/-! ### Matcher helper lemmas -/

theorem if_isEmpty_flatMap {G : Type} (l : List (Station G)) (f : Station G → List MatchResult) :
    (if l.isEmpty then [] else l.flatMap f) = l.flatMap f := by
  cases l <;> simp

/-- The two sequential result-building loops: containment records for all
stations first, then nearest records for the remaining stations. -/
theorem matchCore_eq {G : Type} (within : G → G → Bool) (dist : G → G → ℚ)
    (stations : List (Station G)) (green : List (GreenArea G)) (mx : ℚ) :
    matchCore within dist stations green mx =
      stations.flatMap (containedFor within green) ++
        (remainingStations within green stations).flatMap (nearestFor dist mx green) := by
  simp only [matchCore, if_isEmpty_flatMap]

theorem set_crs_default_rows {ρ : Type} (g : GeoDF ρ) :
    (set_crs_default g).rows = g.rows := by
  unfold set_crs_default; split <;> rfl

theorem foldl_min_mem (l : List ℚ) : ∀ a : ℚ, l.foldl min a = a ∨ l.foldl min a ∈ l := by
  induction l with
  | nil => intro a; left; rfl
  | cons b t ih =>
    intro a
    rcases ih (min a b) with h | h
    · rw [List.foldl_cons, h]
      rcases min_choice a b with h2 | h2 <;> rw [h2]
      · left; rfl
      · right; exact List.mem_cons_self b t
    · right
      rw [List.foldl_cons]
      exact List.mem_cons_of_mem b h

/-- The nearest join emits at least one row per remaining station (left
join: a NaN row when nothing is in range, the minimal-distance rows
otherwise, the minimum being attained). -/
theorem nearestRows_ne_nil {G : Type} (dist : G → G → ℚ) (mx : ℚ)
    (green : List (GreenArea G)) (s : Station G) : nearestRows dist mx green s ≠ [] := by
  unfold nearestRows
  cases h : inRangeGreens dist mx green s with
  | nil => simp
  | cons g0 gs =>
    simp only [ne_eq, List.map_eq_nil_iff]
    intro hfil
    rw [List.filter_eq_nil_iff] at hfil
    rcases foldl_min_mem (gs.map fun g => dist s.geom g.geom) (dist s.geom g0.geom)
      with hm | hm
    · exact absurd (by simp [hm]) (hfil g0 (List.mem_cons_self g0 gs))
    · rw [List.mem_map] at hm
      obtain ⟨g, hg, hgd⟩ := hm
      exact absurd (by simp [hgd]) (hfil g (List.mem_cons_of_mem g0 hg))

theorem nearestFor_ne_nil {G : Type} (dist : G → G → ℚ) (mx : ℚ)
    (green : List (GreenArea G)) (s : Station G) : nearestFor dist mx green s ≠ [] := by
  unfold nearestFor
  simpa using nearestRows_ne_nil dist mx green s

theorem containedFor_ne_nil_of_processed {G : Type} (within : G → G → Bool)
    (green : List (GreenArea G)) (s : Station G)
    (h : stationProcessed within green s = true) :
    containedFor within green s ≠ [] := by
  unfold stationProcessed at h
  rw [List.any_eq_true] at h
  obtain ⟨r, hr, hsome⟩ := h
  obtain ⟨m, hm⟩ := Option.isSome_iff_exists.mp hsome
  intro hnil
  unfold containedFor at hnil
  rw [List.filterMap_eq_nil_iff] at hnil
  have := hnil r hr
  rw [hm] at this
  simp at this

/-- Every station contributes at least one record: a processed one in the
containment block, an unprocessed one in the nearest block. -/
theorem matchCore_length_ge {G : Type} (within : G → G → Bool) (dist : G → G → ℚ)
    (green : List (GreenArea G)) (mx : ℚ) :
    ∀ stations : List (Station G),
      stations.length ≤ (matchCore within dist stations green mx).length := by
  intro stations
  rw [matchCore_eq]
  induction stations with
  | nil => simp
  | cons s rest ih =>
    rw [List.flatMap_cons]
    unfold remainingStations
    rw [List.filter_cons]
    cases hp : stationProcessed within green s with
    | true =>
      have h1 : 1 ≤ (containedFor within green s).length :=
        List.length_pos.mpr (containedFor_ne_nil_of_processed within green s hp)
      simp only [hp, Bool.not_true, Bool.false_eq_true, if_false, List.length_cons,
        List.length_append, List.length_flatMap]
      unfold remainingStations at ih
      simp only [List.length_append, List.length_flatMap] at ih
      omega
    | false =>
      have h1 : 1 ≤ (nearestFor dist mx green s).length :=
        List.length_pos.mpr (nearestFor_ne_nil dist mx green s)
      simp only [hp, Bool.not_false, eq_self_iff_true, if_true, List.flatMap_cons,
        List.length_cons, List.length_append, List.length_flatMap]
      unfold remainingStations at ih
      simp only [List.length_append, List.length_flatMap] at ih
      omega

theorem unassignedTag_ne_containedTag : unassignedTag ≠ containedTag := by decide

theorem nearestTag_ne_containedTag (mx : ℚ) : nearestTag mx ≠ containedTag := by
  unfold nearestTag containedTag
  intro h
  have hl := congrArg String.length h
  rw [String.length_append, String.length_append] at hl
  have e1 : ("En Yakın (Yeşil Alan Poligonu, <= " : String).length = 34 := by decide
  have e2 : ("m)" : String).length = 2 := by decide
  have e3 : ("İçinde (Yeşil Alan Poligonu)" : String).length = 28 := by decide
  rw [e1, e2, e3] at hl
  omega

theorem projectInputs_congr {G : Type} (proj : String → String → Option (G → G))
    {st st' : GeoDF (Station G)} {gr gr' : GeoDF (GreenArea G)}
    (hs : set_crs_default st = set_crs_default st')
    (hg : set_crs_default gr = set_crs_default gr') :
    projectInputs proj st gr = projectInputs proj st' gr' := by
  unfold projectInputs
  rw [hs, hg]

theorem projectInputs_fst_length {G : Type} (proj : String → String → Option (G → G))
    (st : GeoDF (Station G)) (gr : GeoDF (GreenArea G)) :
    (projectInputs proj st gr).1.length = st.rows.length := by
  unfold projectInputs
  dsimp only
  split
  · simp [set_crs_default_rows]
  · simp [set_crs_default_rows]

theorem projectInputs_of_proj_fail {G : Type} (proj : String → String → Option (G → G))
    (st : GeoDF (Station G)) (gr : GeoDF (GreenArea G))
    (h : proj ((set_crs_default st).crs.getD "EPSG:4326") target_crs = none ∨
         proj ((set_crs_default gr).crs.getD "EPSG:4326") target_crs = none) :
    projectInputs proj st gr = (st.rows, gr.rows) := by
  unfold projectInputs
  dsimp only
  split
  · next f g heq1 heq2 =>
    rcases h with h | h
    · rw [h] at heq1; cases heq1
    · rw [h] at heq2; cases heq2
  · rw [set_crs_default_rows, set_crs_default_rows]

theorem stationProcessed_of_named_within {G : Type} (within : G → G → Bool)
    (green : List (GreenArea G)) (s : Station G) {g : GreenArea G}
    (hg : g ∈ green) (hw : within s.geom g.geom = true) (hm : g.mahalle.isSome) :
    stationProcessed within green s = true := by
  unfold stationProcessed withinRows
  have hgf : g ∈ green.filter fun g => within s.geom g.geom :=
    List.mem_filter.mpr ⟨hg, hw⟩
  have hmem : g.mahalle ∈ (green.filter fun g => within s.geom g.geom).map
      fun g => g.mahalle := List.mem_map_of_mem _ hgf
  have hne : ((green.filter fun g => within s.geom g.geom).map
      fun g => g.mahalle).isEmpty = false := by
    rw [List.isEmpty_eq_false]
    exact List.ne_nil_of_mem hmem
  rw [if_neg (by simp [hne])]
  rw [List.any_eq_true]
  exact ⟨g.mahalle, hmem, hm⟩

theorem flatMap_containedFor_green_nil {G : Type} (within : G → G → Bool) :
    ∀ l : List (Station G), l.flatMap (containedFor within []) = [] := by
  intro l
  induction l with
  | nil => rfl
  | cons a t ih => rw [List.flatMap_cons, ih]; rfl

theorem remainingStations_green_nil {G : Type} (within : G → G → Bool)
    (l : List (Station G)) : remainingStations within [] l = l := by
  unfold remainingStations
  apply List.filter_eq_self.mpr
  intro a _
  rfl

theorem flatMap_nearestFor_green_nil {G : Type} (dist : G → G → ℚ) (mx : ℚ) :
    ∀ l : List (Station G), l.flatMap (nearestFor dist mx []) =
      l.map fun s => ⟨s.name, unassignedMahalle, unassignedTag⟩ := by
  intro l
  induction l with
  | nil => rfl
  | cons a t ih => rw [List.flatMap_cons, ih, List.map_cons]; rfl

/-- An empty green-area frame sends every station through the nearest
loop with a NaN row: one unmatched placeholder record each. -/
theorem matchCore_green_nil {G : Type} (within : G → G → Bool) (dist : G → G → ℚ) (mx : ℚ)
    (sp : List (Station G)) :
    matchCore within dist sp [] mx =
      sp.map fun s => ⟨s.name, unassignedMahalle, unassignedTag⟩ := by
  rw [matchCore_eq, flatMap_containedFor_green_nil, remainingStations_green_nil,
    flatMap_nearestFor_green_nil]
  rfl

/-! ### Matcher claim theorems -/

/-- Claim C1, counterexample.  One input point lying within two named
overlapping region polygons: the left containment join yields one row
per match and the loop appends one record per row, so the single point
produces two Assignment records — the output length (2) differs from the
number of input points (1). -/
theorem matcher_two_records_for_one_point :
    (match_stations_to_neighborhoods_from_green_spaces
      (fun p g => p == 0 && (g == 1 || g == 2)) (fun _ _ => (0 : ℚ))
      (fun _ _ => some id)
      (⟨some "EPSG:4326", [⟨"S", 0⟩]⟩ : GeoDF (Station Nat))
      (⟨some "EPSG:4326", [⟨some "A", 1⟩, ⟨some "B", 2⟩]⟩ : GeoDF (GreenArea Nat))
      2000).length = 2 := by decide

/-- Claim C1, amended: the matcher never drops a point — every input
point produces at least one Assignment record, so the output length is
at least (not exactly) the number of input points; a point within
several named polygons, or with several equidistant nearest matches,
produces one record per match. -/
theorem matcher_emits_at_least_one_record_per_point {G : Type} (within : G → G → Bool)
    (dist : G → G → ℚ) (proj : String → String → Option (G → G))
    (gdf_stations : GeoDF (Station G)) (gdf_green : GeoDF (GreenArea G)) (mx : ℚ) :
    gdf_stations.rows.length ≤
      (match_stations_to_neighborhoods_from_green_spaces within dist proj gdf_stations
        gdf_green mx).length := by
  unfold match_stations_to_neighborhoods_from_green_spaces
  rw [← projectInputs_fst_length proj gdf_stations gdf_green]
  exact matchCore_length_ge within dist _ mx _

/-- Claim C2, counterexample.  The station (geometry 0) lies within the
green polygon with geometry 1 — the within test returns true — but that
polygon has a NaN region name, so the containment loop skips the row and
the point falls through to the nearest tier, which assigns region B with
the nearest method. -/
theorem matcher_within_nan_named_gets_nearest :
    (fun p g : Nat => p == 0 && g == 1) 0 1 = true ∧
    match_stations_to_neighborhoods_from_green_spaces
      (fun p g : Nat => p == 0 && g == 1)
      (fun p g => if p == 0 && g == 2 then (5 : ℚ) else 100) (fun _ _ => some id)
      (⟨some "EPSG:4326", [⟨"S", 0⟩]⟩ : GeoDF (Station Nat))
      (⟨some "EPSG:4326", [⟨none, 1⟩, ⟨some "B", 2⟩]⟩ : GeoDF (GreenArea Nat)) 10 =
      [⟨"S", "B", nearestTag 10⟩] :=
  ⟨rfl, rfl⟩

/-- Claim C2, amended: if a point lies within some region polygon whose
name is non-null, then the point gets at least one record, all its
containment records carry the contained method tag, and the point never
reaches the nearest tier (it is excluded from the remaining stations of
any station list).  A point only inside null-named polygons falls
through to the nearest tier instead. -/
theorem matcher_named_containment_is_contained {G : Type} (within : G → G → Bool)
    (green : List (GreenArea G)) (s : Station G)
    (h : ∃ g ∈ green, within s.geom g.geom = true ∧ g.mahalle.isSome) :
    containedFor within green s ≠ [] ∧
      (∀ r ∈ containedFor within green s, r.assignment_type = containedTag) ∧
      ∀ stations : List (Station G), s ∉ remainingStations within green stations := by
  obtain ⟨g, hg, hw, hm⟩ := h
  have hp := stationProcessed_of_named_within within green s hg hw hm
  refine ⟨containedFor_ne_nil_of_processed within green s hp, ?_, ?_⟩
  · intro r hr
    unfold containedFor at hr
    rw [List.mem_filterMap] at hr
    obtain ⟨o, _, ho⟩ := hr
    cases o with
    | none => exact absurd ho (by simp)
    | some m =>
      rw [Option.map_some'] at ho
      cases ho
      rfl
  · intro stations hmem
    unfold remainingStations at hmem
    rw [List.mem_filter] at hmem
    rw [hp] at hmem
    simp at hmem

/-- Witness for `matcher_named_containment_is_contained` at a station
within a single named region. -/
theorem matcher_named_containment_is_contained_witness :
    containedFor (fun p g : Nat => p == 0 && g == 1) [⟨some "A", 1⟩] ⟨"S", 0⟩ ≠ [] ∧
      (∀ r ∈ containedFor (fun p g : Nat => p == 0 && g == 1) [⟨some "A", 1⟩] ⟨"S", 0⟩,
        r.assignment_type = containedTag) ∧
      ∀ stations : List (Station Nat),
        (⟨"S", 0⟩ : Station Nat) ∉
          remainingStations (fun p g : Nat => p == 0 && g == 1) [⟨some "A", 1⟩] stations :=
  matcher_named_containment_is_contained (fun p g : Nat => p == 0 && g == 1)
    [⟨some "A", 1⟩] ⟨"S", 0⟩ ⟨⟨some "A", 1⟩, by decide, by decide, by decide⟩

/-- Claim C3, counterexample.  A nearest-tier record stores only the
three string fields — no distance field exists in the output record
type, and the method string embeds the maximum (10), not the measured
distance (5); a point with no region in range gets the placeholder
region string and the unmatched method string, not null region and null
distance. -/
theorem matcher_no_distance_field_and_placeholder_strings :
    match_stations_to_neighborhoods_from_green_spaces
      (fun _ _ : Nat => false) (fun _ _ => (5 : ℚ)) (fun _ _ => some id)
      (⟨some "EPSG:4326", [⟨"S", 0⟩]⟩ : GeoDF (Station Nat))
      (⟨some "EPSG:4326", [⟨some "B", 2⟩]⟩ : GeoDF (GreenArea Nat)) 10 =
      [⟨"S", "B", nearestTag 10⟩] ∧
    match_stations_to_neighborhoods_from_green_spaces
      (fun _ _ : Nat => false) (fun _ _ => (5 : ℚ)) (fun _ _ => some id)
      (⟨some "EPSG:4326", [⟨"S", 0⟩]⟩ : GeoDF (Station Nat))
      (⟨some "EPSG:4326", [⟨some "B", 2⟩]⟩ : GeoDF (GreenArea Nat)) 2 =
      [⟨"S", unassignedMahalle, unassignedTag⟩] :=
  ⟨rfl, rfl⟩

/-- Claim C3, amended: every nearest-tier region row comes from a region
within max_nearest_distance (the bound holds but no distance is written
to the output, which has only name, region and method-string fields);
and a point with no in-range region gets exactly one record carrying the
placeholder region string and the unmatched method string rather than
nulls. -/
theorem matcher_nearest_bound_and_unassigned_shape {G : Type} (dist : G → G → ℚ) (mx : ℚ)
    (green : List (GreenArea G)) (s : Station G) :
    (∀ m, some m ∈ nearestRows dist mx green s →
      ∃ g ∈ green, g.mahalle = some m ∧ dist s.geom g.geom ≤ mx) ∧
    ((∀ g ∈ green, ¬(dist s.geom g.geom ≤ mx)) →
      nearestFor dist mx green s =
        [⟨s.name, unassignedMahalle, unassignedTag⟩]) := by
  constructor
  · intro m hm
    unfold nearestRows at hm
    cases hin : inRangeGreens dist mx green s with
    | nil => rw [hin] at hm; simp at hm
    | cons g0 gs =>
      rw [hin] at hm
      simp only [List.mem_map] at hm
      obtain ⟨g, hgf, hgm⟩ := hm
      have hgin : g ∈ inRangeGreens dist mx green s := by
        rw [hin]
        exact List.mem_of_mem_filter hgf
      unfold inRangeGreens at hgin
      rw [List.mem_filter] at hgin
      exact ⟨g, hgin.1, hgm, by simpa using hgin.2⟩
  · intro h
    have hin : inRangeGreens dist mx green s = [] := by
      unfold inRangeGreens
      rw [List.filter_eq_nil_iff]
      intro g hg
      simpa using h g hg
    unfold nearestFor nearestRows
    rw [hin]
    rfl

/-- Witness for `matcher_nearest_bound_and_unassigned_shape`: region B
at distance 5 is in range for bound 10, and out of range for bound 2. -/
theorem matcher_nearest_bound_and_unassigned_shape_witness :
    (∃ g ∈ ([⟨some "B", 2⟩] : List (GreenArea Nat)), g.mahalle = some "B" ∧
      (fun _ _ : Nat => (5 : ℚ)) (0 : Nat) g.geom ≤ 10) ∧
    nearestFor (fun _ _ : Nat => (5 : ℚ)) 2 [⟨some "B", 2⟩] (⟨"S", 0⟩ : Station Nat) =
      [⟨"S", unassignedMahalle, unassignedTag⟩] :=
  ⟨(matcher_nearest_bound_and_unassigned_shape (fun _ _ : Nat => (5 : ℚ)) 10
      [⟨some "B", 2⟩] ⟨"S", 0⟩).1 "B" (by decide),
   (matcher_nearest_bound_and_unassigned_shape (fun _ _ : Nat => (5 : ℚ)) 2
      [⟨some "B", 2⟩] ⟨"S", 0⟩).2 (by decide)⟩

/-- Claim C4, counterexample.  With no CRS declared on either input, the
matcher does not fail: it silently sets EPSG:4326 on the frame and
performs the geometric computation, returning a contained assignment. -/
theorem matcher_missing_crs_no_error :
    (set_crs_default (⟨none, [⟨"S", 0⟩]⟩ : GeoDF (Station Nat))).crs = some "EPSG:4326" ∧
    match_stations_to_neighborhoods_from_green_spaces
      (fun p g : Nat => p == 0 && g == 1) (fun _ _ => (0 : ℚ)) (fun _ _ => some id)
      (⟨none, [⟨"S", 0⟩]⟩ : GeoDF (Station Nat))
      (⟨none, [⟨some "A", 1⟩]⟩ : GeoDF (GreenArea Nat)) 2000 =
      [⟨"S", "A", containedTag⟩] := by
  exact ⟨by decide, by decide⟩

/-- Claim C4, amended: when neither input declares a CRS the matcher
raises nothing; it prints a warning, assumes EPSG:4326 for each frame
and proceeds — the run is identical to one on the same rows with
EPSG:4326 declared. -/
theorem matcher_missing_crs_defaults_to_wgs84 {G : Type} (within : G → G → Bool)
    (dist : G → G → ℚ) (proj : String → String → Option (G → G)) (st : GeoDF (Station G))
    (gr : GeoDF (GreenArea G)) (mx : ℚ) (h1 : st.crs = none) (h2 : gr.crs = none) :
    match_stations_to_neighborhoods_from_green_spaces within dist proj st gr mx =
      match_stations_to_neighborhoods_from_green_spaces within dist proj
        ⟨some "EPSG:4326", st.rows⟩ ⟨some "EPSG:4326", gr.rows⟩ mx := by
  have e1 : set_crs_default st =
      set_crs_default (⟨some "EPSG:4326", st.rows⟩ : GeoDF (Station G)) := by
    unfold set_crs_default
    rw [if_pos h1, if_neg (by simp)]
  have e2 : set_crs_default gr =
      set_crs_default (⟨some "EPSG:4326", gr.rows⟩ : GeoDF (GreenArea G)) := by
    unfold set_crs_default
    rw [if_pos h2, if_neg (by simp)]
  unfold match_stations_to_neighborhoods_from_green_spaces
  rw [projectInputs_congr proj e1 e2]

/-- Witness for `matcher_missing_crs_defaults_to_wgs84` on concrete
undeclared-CRS frames. -/
theorem matcher_missing_crs_defaults_to_wgs84_witness :
    match_stations_to_neighborhoods_from_green_spaces
      (fun p g : Nat => p == 0 && g == 1) (fun _ _ => (0 : ℚ)) (fun _ _ => some id)
      (⟨none, [⟨"S", 0⟩]⟩ : GeoDF (Station Nat))
      (⟨none, [⟨some "A", 1⟩]⟩ : GeoDF (GreenArea Nat)) 2000 =
      match_stations_to_neighborhoods_from_green_spaces
        (fun p g : Nat => p == 0 && g == 1) (fun _ _ => (0 : ℚ)) (fun _ _ => some id)
        (⟨some "EPSG:4326", [⟨"S", 0⟩]⟩ : GeoDF (Station Nat))
        (⟨some "EPSG:4326", [⟨some "A", 1⟩]⟩ : GeoDF (GreenArea Nat)) 2000 :=
  matcher_missing_crs_defaults_to_wgs84 (fun p g : Nat => p == 0 && g == 1)
    (fun _ _ => (0 : ℚ)) (fun _ _ => some id) ⟨none, [⟨"S", 0⟩]⟩
    ⟨none, [⟨some "A", 1⟩]⟩ 2000 rfl rfl

/-- Claim C5, counterexample.  An empty points frame raises no
InputError: the matcher returns normally with an empty result (neither
the function nor the repository defines any InputError). -/
theorem matcher_empty_points_no_error :
    match_stations_to_neighborhoods_from_green_spaces
      (fun _ _ : Nat => true) (fun _ _ => (0 : ℚ)) (fun _ _ => some id)
      (⟨some "EPSG:4326", []⟩ : GeoDF (Station Nat))
      (⟨some "EPSG:4326", [⟨some "A", 1⟩]⟩ : GeoDF (GreenArea Nat)) 2000 = [] := by decide

/-- Claim C5, amended: an empty points frame yields an empty result list
with no exception; an empty regions frame with any points frame yields
one unmatched placeholder record per point, also with no exception. -/
theorem matcher_empty_input_behavior {G : Type} (within : G → G → Bool) (dist : G → G → ℚ)
    (proj : String → String → Option (G → G)) (c c2 : Option String)
    (rows : List (Station G)) (grows : List (GreenArea G)) (mx : ℚ) :
    match_stations_to_neighborhoods_from_green_spaces within dist proj ⟨c, []⟩ ⟨c2, grows⟩ mx
      = [] ∧
    match_stations_to_neighborhoods_from_green_spaces within dist proj ⟨c, rows⟩ ⟨c2, []⟩ mx
      = rows.map fun s => ⟨s.name, unassignedMahalle, unassignedTag⟩ := by
  constructor
  · unfold match_stations_to_neighborhoods_from_green_spaces
    dsimp only
    have h1 : (projectInputs proj (⟨c, []⟩ : GeoDF (Station G)) ⟨c2, grows⟩).1 = [] := by
      have h2 := projectInputs_fst_length proj (⟨c, []⟩ : GeoDF (Station G)) ⟨c2, grows⟩
      simp at h2
      exact h2
    rw [h1, matchCore_eq]
    rfl
  · unfold match_stations_to_neighborhoods_from_green_spaces projectInputs
    dsimp only
    split
    · rw [set_crs_default_rows, set_crs_default_rows]
      dsimp only
      rw [List.map_nil, matchCore_green_nil, List.map_map]
      rfl
    · rw [set_crs_default_rows, set_crs_default_rows]
      dsimp only
      rw [matchCore_green_nil]

/-- Claim C6, counterexample.  A region whose name is the empty string
passes the notna test, so a containment match against it is recorded as
an ordinary successful contained assignment, with the standard method
tag and no flag. -/
theorem matcher_empty_string_name_ordinary_match :
    match_stations_to_neighborhoods_from_green_spaces
      (fun p g : Nat => p == 0 && g == 1) (fun _ _ => (0 : ℚ)) (fun _ _ => some id)
      (⟨some "EPSG:4326", [⟨"S", 0⟩]⟩ : GeoDF (Station Nat))
      (⟨some "EPSG:4326", [⟨some "", 1⟩]⟩ : GeoDF (GreenArea Nat)) 2000 =
      [⟨"S", "", containedTag⟩] := by decide

/-- Claim C6, amended: all regions are eligible for the geometric tests,
but a match against a NaN-named region is dropped, not flagged — a
containment match is skipped entirely (the point falls through), and a
nearest match against such a region produces the unmatched placeholder
record; while a match against a region named by a non-null string (even
the empty string) is recorded as an ordinary contained assignment with
the standard tag and no flag. -/
theorem matcher_nameless_region_handling {G : Type} (within : G → G → Bool)
    (dist : G → G → ℚ) (green : List (GreenArea G)) (s : Station G) (mx : ℚ) :
    ((∀ g ∈ green, within s.geom g.geom = true → g.mahalle = none) →
      containedFor within green s = []) ∧
    (∀ g ∈ green, within s.geom g.geom = true → ∀ m, g.mahalle = some m →
      (⟨s.name, m, containedTag⟩ : MatchResult) ∈ containedFor within green s) ∧
    (∀ g : GreenArea G, g.mahalle = none → dist s.geom g.geom ≤ mx →
      nearestFor dist mx [g] s = [⟨s.name, unassignedMahalle, unassignedTag⟩]) := by
  refine ⟨?_, ?_, ?_⟩
  · intro h
    unfold containedFor
    rw [List.filterMap_eq_nil_iff]
    intro o ho
    unfold withinRows at ho
    by_cases hh : ((green.filter fun g => within s.geom g.geom).map
        fun g => g.mahalle).isEmpty = true
    · rw [if_pos (by simp [hh])] at ho
      rw [List.mem_singleton] at ho
      rw [ho]
      rfl
    · rw [if_neg (by simp [hh])] at ho
      rw [List.mem_map] at ho
      obtain ⟨g, hgf, hgm⟩ := ho
      rw [List.mem_filter] at hgf
      rw [← hgm, h g hgf.1 hgf.2]
      rfl
  · intro g hg hw m hm
    have hgf : g ∈ green.filter fun g => within s.geom g.geom :=
      List.mem_filter.mpr ⟨hg, hw⟩
    have hmem : g.mahalle ∈ (green.filter fun g => within s.geom g.geom).map
        fun g => g.mahalle := List.mem_map_of_mem _ hgf
    have hne : ((green.filter fun g => within s.geom g.geom).map
        fun g => g.mahalle).isEmpty = false := by
      rw [List.isEmpty_eq_false]
      exact List.ne_nil_of_mem hmem
    unfold containedFor withinRows
    rw [if_neg (by simp [hne])]
    rw [List.mem_filterMap]
    refine ⟨some m, ?_, rfl⟩
    rw [← hm]
    exact hmem
  · intro g hgm hd
    have hin : inRangeGreens dist mx [g] s = [g] := by
      unfold inRangeGreens
      rw [List.filter_cons, if_pos (by simpa using hd)]
      rfl
    unfold nearestFor nearestRows
    rw [hin]
    dsimp only
    rw [List.filter_cons, if_pos (by simp), List.filter_nil]
    rw [List.map_cons, List.map_nil, hgm]
    rfl

/-- Witness for `matcher_nameless_region_handling` at a NaN-named
region containing the station. -/
theorem matcher_nameless_region_handling_witness :
    ((∀ g ∈ ([⟨none, 1⟩] : List (GreenArea Nat)),
        (fun p g2 : Nat => p == 0 && g2 == 1) (0 : Nat) g.geom = true → g.mahalle = none) →
      containedFor (fun p g2 : Nat => p == 0 && g2 == 1) [⟨none, 1⟩] ⟨"S", 0⟩ = []) ∧
    (∀ g ∈ ([⟨none, 1⟩] : List (GreenArea Nat)),
      (fun p g2 : Nat => p == 0 && g2 == 1) (0 : Nat) g.geom = true → ∀ m, g.mahalle = some m →
      (⟨"S", m, containedTag⟩ : MatchResult) ∈
        containedFor (fun p g2 : Nat => p == 0 && g2 == 1) [⟨none, 1⟩] ⟨"S", 0⟩) ∧
    (∀ g : GreenArea Nat, g.mahalle = none → (fun _ _ : Nat => (3 : ℚ)) (0 : Nat) g.geom ≤ 10 →
      nearestFor (fun _ _ : Nat => (3 : ℚ)) 10 [g] ⟨"S", 0⟩ =
        [⟨"S", unassignedMahalle, unassignedTag⟩]) :=
  matcher_nameless_region_handling (fun p g2 : Nat => p == 0 && g2 == 1)
    (fun _ _ : Nat => (3 : ℚ)) [⟨none, 1⟩] ⟨"S", 0⟩ 10

/-- Claim C7, counterexample.  With S1 first in the input but unmatched
and S2 second but contained, the output lists the contained S2 record
before the S1 record: records are not emitted in the original point
order. -/
theorem matcher_not_in_input_order :
    match_stations_to_neighborhoods_from_green_spaces
      (fun p g : Nat => p == 1 && g == 2) (fun _ _ => (100 : ℚ)) (fun _ _ => some id)
      (⟨some "EPSG:4326", [⟨"S1", 0⟩, ⟨"S2", 1⟩]⟩ : GeoDF (Station Nat))
      (⟨some "EPSG:4326", [⟨some "A", 2⟩]⟩ : GeoDF (GreenArea Nat)) 10 =
      [⟨"S2", "A", containedTag⟩,
       ⟨"S1", unassignedMahalle, unassignedTag⟩] := by decide

/-- Claim C7, amended: the records are grouped by tier, not interleaved
in point order — the output is a containment block (all records tagged
contained, stations in input order) followed by a nearest block (all
records tagged otherwise, remaining stations in input order). -/
theorem matcher_contained_block_precedes_nearest_block {G : Type} (within : G → G → Bool)
    (dist : G → G → ℚ) (stations : List (Station G)) (green : List (GreenArea G)) (mx : ℚ) :
    ∃ A B, matchCore within dist stations green mx = A ++ B ∧
      (∀ r ∈ A, r.assignment_type = containedTag) ∧
      (∀ r ∈ B, r.assignment_type ≠ containedTag) := by
  refine ⟨stations.flatMap (containedFor within green),
    (remainingStations within green stations).flatMap (nearestFor dist mx green),
    matchCore_eq within dist stations green mx, ?_, ?_⟩
  · intro r hr
    rw [List.mem_flatMap] at hr
    obtain ⟨s, _, hr⟩ := hr
    unfold containedFor at hr
    rw [List.mem_filterMap] at hr
    obtain ⟨o, _, ho⟩ := hr
    cases o with
    | none => exact absurd ho (by simp)
    | some m =>
      rw [Option.map_some'] at ho
      cases ho
      rfl
  · intro r hr
    rw [List.mem_flatMap] at hr
    obtain ⟨s, _, hr⟩ := hr
    unfold nearestFor at hr
    rw [List.mem_map] at hr
    obtain ⟨o, _, ho⟩ := hr
    cases o with
    | some m =>
      cases ho
      exact nearestTag_ne_containedTag mx
    | none =>
      cases ho
      exact unassignedTag_ne_containedTag

/-- Claim C8, counterexample.  With a reprojection that fails (to_crs
raising), the matcher does not abort: the except branch continues with
the original frames and returns a normal contained assignment. -/
theorem matcher_failed_reprojection_cex :
    match_stations_to_neighborhoods_from_green_spaces
      (fun p g : Nat => p == 0 && g == 1) (fun _ _ => (0 : ℚ))
      (fun _ _ => (none : Option (Nat → Nat)))
      (⟨some "EPSG:9999", [⟨"S", 0⟩]⟩ : GeoDF (Station Nat))
      (⟨some "EPSG:4326", [⟨some "A", 1⟩]⟩ : GeoDF (GreenArea Nat)) 2000 =
      [⟨"S", "A", containedTag⟩] := by decide

/-- Claim C8, amended: the matcher has no retry logic, but a failed
reprojection does not abort the call — the exception is caught, a
warning printed, and matching proceeds on the unprojected rows. -/
theorem matcher_failed_reprojection_no_abort {G : Type} (within : G → G → Bool)
    (dist : G → G → ℚ) (proj : String → String → Option (G → G)) (st : GeoDF (Station G))
    (gr : GeoDF (GreenArea G)) (mx : ℚ)
    (h : proj ((set_crs_default st).crs.getD "EPSG:4326") target_crs = none ∨
         proj ((set_crs_default gr).crs.getD "EPSG:4326") target_crs = none) :
    match_stations_to_neighborhoods_from_green_spaces within dist proj st gr mx =
      matchCore within dist st.rows gr.rows mx := by
  unfold match_stations_to_neighborhoods_from_green_spaces
  rw [projectInputs_of_proj_fail proj st gr h]

/-- Witness for `matcher_failed_reprojection_no_abort` with an
always-failing reprojection. -/
theorem matcher_failed_reprojection_no_abort_witness :
    match_stations_to_neighborhoods_from_green_spaces
      (fun p g : Nat => p == 0 && g == 1) (fun _ _ => (0 : ℚ))
      (fun _ _ => (none : Option (Nat → Nat)))
      (⟨some "EPSG:9999", [⟨"S", 0⟩]⟩ : GeoDF (Station Nat))
      (⟨some "EPSG:4326", [⟨some "A", 1⟩]⟩ : GeoDF (GreenArea Nat)) 2000 =
      matchCore (fun p g : Nat => p == 0 && g == 1) (fun _ _ => (0 : ℚ))
        [⟨"S", 0⟩] [⟨some "A", 1⟩] 2000 :=
  matcher_failed_reprojection_no_abort (fun p g : Nat => p == 0 && g == 1)
    (fun _ _ => (0 : ℚ)) (fun _ _ => none) ⟨some "EPSG:9999", [⟨"S", 0⟩]⟩
    ⟨some "EPSG:4326", [⟨some "A", 1⟩]⟩ 2000 (Or.inl rfl)

end OptProject
